import Mathlib

/-!
Verification of the use-case generation pipeline in
`src/workflow/use_case_generator.py` (Multiversers/use_case_library).

The Python program is shallowly embedded:

* JSON values (Python dicts/lists/strings/numbers/None as they appear in the
  program's data flow) are the inductive type `UCG.JVal`.  Numeric JSON values
  are modelled as rationals; no claim depends on binary floating-point
  rounding, only on order comparisons and on `float(None)` raising.
* Python exceptions are the type `UCG.PyErr`; fallible code returns
  `Except PyErr _`.  A `try/except` is a `match` on the `Except`.
* The step cache (`<job_dir>/<step>.json` files, each holding the JSON object
  with the single key "content") is modelled as the association list
  `UCG.FS` from step name to the saved content string.  The
  `json.dump({"content": c}) / json.load(...).get("content", "")` round trip
  through the standard library is exact on strings, so the file body is
  modelled directly by the content string; the `.get` default "" only fires
  for files not written by `save_partial_result`, which the program never
  creates.
* `json.loads` (standard library) is passed in as an explicit environment
  function `loads : String → Except PyErr JVal`; `json.dumps` is the concrete
  renderer `UCG.jsonDumps` (indentation and float formatting of the standard
  library are not reproduced; no claim inspects that text).
* Outbound collaborator requests (OpenAI / Perplexity calls, already wrapped
  in the program's retry decorators) are oracle parameters giving the
  post-retry outcome of each call.  Stage functions additionally return the
  number of outbound collaborator calls they performed; this instrumentation
  is not in the source and exists only to state the zero-outbound-call
  properties.  Prompt strings sent to the collaborators are not reproduced:
  they are constants that never influence the control flow modelled here.
-/

namespace UCG

/-- JSON values / Python data reachable in the program's data flow.  `num`
uses rationals (see file header). -/
inductive JVal where
  | null
  | bool (b : Bool)
  | num (q : ℚ)
  | str (s : String)
  | arr (xs : List JVal)
  | obj (kvs : List (String × JVal))

/-- The Python exception kinds the modelled code can raise or catch. -/
inductive PyErr where
  | keyError (k : String)
  | typeError (msg : String)
  | attrError (msg : String)
  | jsonDecodeError (msg : String)
  | apiError (msg : String)
deriving DecidableEq, Repr

/-- First-match lookup in an association list (Python dict read). -/
def getAssoc : List (String × JVal) → String → Option JVal
  | [], _ => none
  | (k, v) :: rest, key => if k = key then some v else getAssoc rest key

/-- Replace the binding of `key` in place (Python dict item assignment);
append if absent. -/
def setAssoc : List (String × JVal) → String → JVal → List (String × JVal)
  | [], key, v => [(key, v)]
  | (k, w) :: rest, key, v =>
    if k = key then (key, v) :: rest else (k, w) :: setAssoc rest key v

/-- Python `d[key] = v` on a dict value.  Every call site in the program
applies it to a dict (a pydantic `model_dump()`), so the non-dict branch is
inert. -/
def setKey : JVal → String → JVal → JVal
  | .obj kvs, key, v => .obj (setAssoc kvs key v)
  | j, _, _ => j

/-- Key lookup on a dict value (used only in theorem statements). -/
def lookupKey : JVal → String → Option JVal
  | .obj kvs, key => getAssoc kvs key
  | _, _ => none

/-- Python truthiness of a JSON value. -/
def pyTruthy : JVal → Bool
  | .null => false
  | .bool b => b
  | .num q => q ≠ 0
  | .str s => s ≠ ""
  | .arr xs => !xs.isEmpty
  | .obj kvs => !kvs.isEmpty

/-- Python `d[key]`: `KeyError` on a missing key, `TypeError` when the value
is not subscriptable by a string key. -/
def pyGetItem : JVal → String → Except PyErr JVal
  | .obj kvs, key =>
    match getAssoc kvs key with
    | some v => .ok v
    | none => .error (.keyError key)
  | _, key => .error (.typeError ("value is not subscriptable with key " ++ key))

/-- Python `d.get(key, default)`: `AttributeError` when the receiver is not a
dict (only dict has `.get` among the values flowing here). -/
def pyGetDefault : JVal → String → JVal → Except PyErr JVal
  | .obj kvs, key, dflt => .ok ((getAssoc kvs key).getD dflt)
  | _, _, _ => .error (.attrError "object has no attribute get")

/-- Python `in` on a dict (key containment). -/
def pyHasKey : JVal → String → Bool
  | .obj kvs, key => (getAssoc kvs key).isSome
  | _, _ => false

/-- Iterating a value as a list.  The program only ever iterates JSON arrays
on the paths modelled here; Python's character iteration of strings and key
iteration of dicts are collapsed into a `TypeError`, which no claim
exercises. -/
def pyAsList : JVal → Except PyErr (List JVal)
  | .arr xs => .ok xs
  | _ => .error (.typeError "value is not iterable as a list here")

/-- Python `float(x)` as applied to citation relevance scores: numbers pass
through, booleans coerce, `None` raises `TypeError` (the behaviour claim C6
turns on).  Numeric strings would parse in Python; no data path modelled here
carries a string score, so that branch also errors. -/
def pyFloat : JVal → Except PyErr ℚ
  | .num q => .ok q
  | .bool true => .ok 1
  | .bool false => .ok 0
  | .null => .error (.typeError "float() argument must be a string or a real number, not NoneType")
  | _ => .error (.typeError "float() argument not convertible")

/-- Python `x >= (r : float)` for a JSON value `x` (citation score filter):
numbers and booleans compare, everything else raises `TypeError`. -/
def pyGeQ : JVal → ℚ → Except PyErr Bool
  | .num q, r => .ok (decide (r ≤ q))
  | .bool true, r => .ok (decide (r ≤ 1))
  | .bool false, r => .ok (decide (r ≤ 0))
  | _, _ => .error (.typeError "comparison not supported between these instances")

/-- Python `str(x)` as used inside f-strings.  Arrays/dicts fall back to the
JSON rendering (Python's `repr` differs in quoting; no claim inspects it). -/
def jsonEscapeChar (c : Char) : String :=
  if c = '\\' then "\\\\"
  else if c = '\"' then "\\\""
  else if c = '\n' then "\\n"
  else if c = '\t' then "\\t"
  else if c = '\r' then "\\r"
  else String.singleton c

/-- Escape a string for JSON output. -/
def jsonEscape (s : String) : String :=
  String.join (s.data.map jsonEscapeChar)

mutual

/-- `json.dumps` (compact form; the source sometimes passes `indent=2`, and
prints floats differently — no claim inspects that formatting). -/
def jsonDumps : JVal → String
  | .null => "null"
  | .bool true => "true"
  | .bool false => "false"
  | .num q => toString q
  | .str s => "\"" ++ jsonEscape s ++ "\""
  | .arr xs => "[" ++ String.intercalate ", " (jsonDumpsArr xs) ++ "]"
  | .obj kvs => "\x7b" ++ String.intercalate ", " (jsonDumpsObj kvs) ++ "\x7d"

/-- Render the elements of a JSON array. -/
def jsonDumpsArr : List JVal → List String
  | [] => []
  | x :: xs => jsonDumps x :: jsonDumpsArr xs

/-- Render the entries of a JSON object. -/
def jsonDumpsObj : List (String × JVal) → List String
  | [] => []
  | (k, v) :: kvs => ("\"" ++ jsonEscape k ++ "\": " ++ jsonDumps v) :: jsonDumpsObj kvs

end

/-- Python `str(x)` inside an f-string interpolation. -/
def pyStrOf : JVal → String
  | .str s => s
  | .null => "None"
  | .bool true => "True"
  | .bool false => "False"
  | .num q => toString q
  | v => jsonDumps v

/-- Python `s.strip()`: drop leading and trailing whitespace (structural
recursion over the character list so that concrete instances compute; the
pipeline only ever strips ASCII whitespace). -/
def pyStrip (s : String) : String :=
  String.mk (((s.data.dropWhile Char.isWhitespace).reverse.dropWhile Char.isWhitespace).reverse)

/-- Helper for `pySplitNL`: accumulate the current line (reversed). -/
def pySplitNLAux : List Char → List Char → List String
  | [], acc => [String.mk acc.reverse]
  | c :: cs, acc =>
    if c = '\n' then String.mk acc.reverse :: pySplitNLAux cs []
    else pySplitNLAux cs (c :: acc)

/-- Python `s.split("\n")`: like `String.splitOn "\n"` but by structural
recursion so that concrete instances compute. -/
def pySplitNL (s : String) : List String := pySplitNLAux s.data []

-- -----------------------------------------------------------------------------
-- Step Cache (JobManager partial results)
-- -----------------------------------------------------------------------------

/-- The job directory's step files: step name ↦ saved content string (see file
header for the modelling of the on-disk `{"content": …}` wrapper). -/
abbrev FS := List (String × String)

/-- First-match lookup: the most recent save of a step shadows older ones. -/
def lookupFS : FS → String → Option String
  | [], _ => none
  | (k, v) :: rest, key => if k = key then some v else lookupFS rest key

/-- `save_partial_result`: always (over)writes the step's file. -/
def save_partial_result (fs : FS) (step_name : String) (content : String) : FS :=
  (step_name, content) :: fs

/-- `load_partial_result`: `None` when the step's file does not exist,
otherwise exactly the saved content. -/
def load_partial_result (fs : FS) (step_name : String) : Option String :=
  lookupFS fs step_name

/-- Python truthiness of an `Optional[str]`: `None` and `""` are falsy.  Each
stage and the failure policy gate on `if existing_content:` — this function is
that gate. -/
def truthyStr? : Option String → Option String
  | some s => if s = "" then none else some s
  | none => none

/-- The deep-research fallback payload built by `handle_step_failure`
(`json.dumps({"content": …, "citations": []})`). -/
def deepResearchFallback : String :=
  jsonDumps (.obj [("content", .str "Research unavailable due to API error. Please review manually."),
                   ("citations", .arr [])])

/-- `JobManager.handle_step_failure`: cached result if a truthy one exists,
else the fixed fallback table, else re-raise the original error for the three
critical steps, else `None`. -/
def handle_step_failure (fs : FS) (step_name : String) (error : PyErr) :
    Except PyErr (Option String) :=
  match truthyStr? (load_partial_result fs step_name) with
  | some prior => .ok (some prior)
  | none =>
    if step_name = "research_questions" then
      .ok (some "What are the current best practices for this use case?\nWhat are common pitfalls to avoid?")
    else if step_name = "deep_research" then
      .ok (some deepResearchFallback)
    else if step_name = "visual_suggestions" then
      .ok (some "Visual suggestions unavailable due to processing error.")
    else if step_name ∈ ["refined_draft", "final_use_case", "example_solution"] then
      .error error
    else
      .ok none

-- -----------------------------------------------------------------------------
-- Pydantic models (schema-validated collaborator responses) and their
-- `model_dump()` renderings into JSON values
-- -----------------------------------------------------------------------------

/-- `SubStep` (pydantic). -/
structure SubStep where
  title : String
  description : Option String := none
  bullets : Option (List String) := none
deriving DecidableEq, Repr

/-- `UseCaseStep` (pydantic). -/
structure UseCaseStep where
  step_title : String
  step_instructions : String
  sub_steps : Option (List SubStep) := none
  advice : Option String := none
deriving DecidableEq, Repr

/-- `Citation` (pydantic). -/
structure Citation where
  url : String
  title : Option String := none
  snippet : Option String := none
  relevance_score : Option ℚ := none
deriving DecidableEq, Repr

/-- `UseCaseMetadata` (pydantic; all fields optional). -/
structure UseCaseMetadata where
  ai_tool : Option String
  family : Option String
  status : Option String
  complexity_level : Option String
  customization_level : Option String
  time_minutes : Option Int
  department : Option (List String)
  role : Option (List String)
  notes : Option String
  tool : Option String
  mode : Option String
  model : Option String
  coding_language : Option String
deriving DecidableEq, Repr

/-- `UseCaseStructuredOutput` (pydantic). -/
structure UseCaseStructuredOutput where
  title : String
  time_to_complete : String
  description : String
  steps : List UseCaseStep
  resources : List String
  metadata : Option UseCaseMetadata := none
  citations : Option (List Citation) := none
deriving DecidableEq, Repr

/-- `Step` (pydantic, example-solution demo step). -/
structure Step where
  action : String
  code_or_prompt : String
deriving DecidableEq, Repr

/-- `ExampleSolution` (pydantic). -/
structure ExampleSolution where
  title : String
  setup_time : Int
  demo_time : Int
  prerequisites : List String
  scenario : String
  steps : List Step
  validation : List String
  key_points : List String
  common_issues : List String
  variations : List String
deriving DecidableEq, Repr

/-- `ExampleSolutionOutput` (pydantic). -/
structure ExampleSolutionOutput where
  metadata : UseCaseMetadata
  solution : ExampleSolution
  demo_script : String
deriving DecidableEq, Repr

/-- `model_dump()` of an optional string field. -/
def optStrJ : Option String → JVal
  | some s => .str s
  | none => .null

/-- `model_dump()` of an optional integer field. -/
def optIntJ : Option Int → JVal
  | some n => .num n
  | none => .null

/-- `model_dump()` of an optional string-list field. -/
def optListStrJ : Option (List String) → JVal
  | some l => .arr (l.map .str)
  | none => .null

/-- `model_dump()` of an optional rational (float) field. -/
def optNumJ : Option ℚ → JVal
  | some q => .num q
  | none => .null

/-- `SubStep.model_dump()`. -/
def SubStep.dump (s : SubStep) : JVal :=
  .obj [("title", .str s.title), ("description", optStrJ s.description),
        ("bullets", optListStrJ s.bullets)]

/-- `UseCaseStep.model_dump()`. -/
def UseCaseStep.dump (s : UseCaseStep) : JVal :=
  .obj [("step_title", .str s.step_title), ("step_instructions", .str s.step_instructions),
        ("sub_steps", match s.sub_steps with
                      | some l => .arr (l.map SubStep.dump)
                      | none => .null),
        ("advice", optStrJ s.advice)]

/-- `Citation.model_dump()`: an unscored citation dumps with an explicit
`"relevance_score": null` entry (the key is present). -/
def Citation.dump (c : Citation) : JVal :=
  .obj [("url", .str c.url), ("title", optStrJ c.title), ("snippet", optStrJ c.snippet),
        ("relevance_score", optNumJ c.relevance_score)]

/-- `UseCaseMetadata.model_dump()`. -/
def UseCaseMetadata.dump (m : UseCaseMetadata) : JVal :=
  .obj [("ai_tool", optStrJ m.ai_tool), ("family", optStrJ m.family),
        ("status", optStrJ m.status), ("complexity_level", optStrJ m.complexity_level),
        ("customization_level", optStrJ m.customization_level),
        ("time_minutes", optIntJ m.time_minutes),
        ("department", optListStrJ m.department), ("role", optListStrJ m.role),
        ("notes", optStrJ m.notes), ("tool", optStrJ m.tool), ("mode", optStrJ m.mode),
        ("model", optStrJ m.model), ("coding_language", optStrJ m.coding_language)]

/-- `UseCaseStructuredOutput.model_dump()`. -/
def UseCaseStructuredOutput.dump (u : UseCaseStructuredOutput) : JVal :=
  .obj [("title", .str u.title), ("time_to_complete", .str u.time_to_complete),
        ("description", .str u.description),
        ("steps", .arr (u.steps.map UseCaseStep.dump)),
        ("resources", .arr (u.resources.map .str)),
        ("metadata", match u.metadata with
                     | some m => m.dump
                     | none => .null),
        ("citations", match u.citations with
                      | some l => .arr (l.map Citation.dump)
                      | none => .null)]

/-- `Step.model_dump()`. -/
def Step.dump (s : Step) : JVal :=
  .obj [("action", .str s.action), ("code_or_prompt", .str s.code_or_prompt)]

/-- `ExampleSolution.model_dump()`. -/
def ExampleSolution.dump (s : ExampleSolution) : JVal :=
  .obj [("title", .str s.title), ("setup_time", .num s.setup_time),
        ("demo_time", .num s.demo_time),
        ("prerequisites", .arr (s.prerequisites.map .str)),
        ("scenario", .str s.scenario),
        ("steps", .arr (s.steps.map Step.dump)),
        ("validation", .arr (s.validation.map .str)),
        ("key_points", .arr (s.key_points.map .str)),
        ("common_issues", .arr (s.common_issues.map .str)),
        ("variations", .arr (s.variations.map .str))]

/-- `ExampleSolutionOutput.model_dump()`. -/
def ExampleSolutionOutput.dump (e : ExampleSolutionOutput) : JVal :=
  .obj [("metadata", e.metadata.dump), ("solution", e.solution.dump),
        ("demo_script", .str e.demo_script)]

-- -----------------------------------------------------------------------------
-- Stage 1: identify_research_questions
-- -----------------------------------------------------------------------------

/-- A stage result triple: the Python return value, the updated step cache,
and the number of outbound collaborator calls performed (instrumentation; see
file header). -/
abbrev StageResult (α : Type) := Except PyErr (α × FS × Nat)

/-- `identify_research_questions`.  On a truthy cached result it returns
`existing_content.split("\n")` with no outbound call; otherwise the oracle
gives the model's message content, which is stripped, split into lines,
re-stripped and filtered, saved joined by newlines, and returned. -/
def identify_research_questions (fs : FS) (oracle : Except PyErr String) :
    StageResult (List String) :=
  match truthyStr? (load_partial_result fs "research_questions") with
  | some existing_content => .ok (pySplitNL existing_content, fs, 0)
  | none =>
    match oracle with
    | .error e => .error e
    | .ok content =>
      let questions := ((pySplitNL (pyStrip content)).map pyStrip).filter (· ≠ "")
      .ok (questions,
           save_partial_result fs "research_questions" (String.intercalate "\n" questions), 1)

-- -----------------------------------------------------------------------------
-- Stage 2: deep_research
-- -----------------------------------------------------------------------------

/-- A citation as assembled by `deep_research` from the Perplexity response:
URL plus the best-effort fetched title (snippet and relevance are set to
`None`). -/
structure CitD where
  url : String
  title : Option String
deriving DecidableEq, Repr

/-- What `deep_research` actually hands to its callers: the
`{'content': …, 'citations': …}` dict on a fresh run, or the raw cached JSON
string on a resumed run. -/
inductive RVal where
  | dict (content : String) (citations : List CitD)
  | str (s : String)
deriving DecidableEq, Repr

/-- Whether an `RVal` is the structured ResearchResult shape (content plus
citation list) rather than a bare string. -/
def RVal.isDict : RVal → Bool
  | .dict _ _ => true
  | .str _ => false

/-- The `research_results` dict as serialized by `deep_research` before
saving. -/
def researchResultsJVal (content : String) (citations : List CitD) : JVal :=
  .obj [("content", .str content),
        ("citations", .arr (citations.map fun c =>
          .obj [("url", .str c.url), ("title", optStrJ c.title),
                ("snippet", .null), ("relevance_score", .null)]))]

/-- `deep_research`.  The oracle gives the Perplexity response content
together with the citation list after the best-effort URL title fetches
(title-fetch failures already degraded to `None` titles inside the oracle).
A resumed run returns the cached string itself. -/
def deep_research (fs : FS) (oracle : Except PyErr (String × List CitD)) :
    StageResult RVal :=
  match truthyStr? (load_partial_result fs "deep_research") with
  | some existing_content => .ok (.str existing_content, fs, 0)
  | none =>
    match oracle with
    | .error e => .error e
    | .ok (content, citations) =>
      let stripped := pyStrip content
      .ok (.dict stripped citations,
           save_partial_result fs "deep_research"
             (jsonDumps (researchResultsJVal stripped citations)), 1)

-- -----------------------------------------------------------------------------
-- Stage 3: refine_use_case_with_reasoning
-- -----------------------------------------------------------------------------

/-- Outcome of a structured `chat_completion_parse` call: either the refusal
flag or the parsed schema value. -/
inductive ParsedMessage where
  | refusal
  | parsed (value : UseCaseStructuredOutput)
deriving DecidableEq, Repr

/-- The list comprehension
`[c for c in scored_results.get('citations', []) if c.get('relevance_score', 0) >= 0.7]`. -/
def filterScoredCitations : List JVal → Except PyErr (List JVal)
  | [] => .ok []
  | c :: rest => do
    let v ← pyGetDefault c "relevance_score" (.num 0)
    let keep ← pyGeQ v (mkRat 7 10)
    let tail ← filterScoredCitations rest
    .ok (if keep then c :: tail else tail)

/-- Extraction of `other_citations` from the scored-citation response. -/
def otherCitationsOf (scored : JVal) : Except PyErr (List JVal) := do
  let cs ← pyGetDefault scored "citations" (.arr [])
  let cl ← pyAsList cs
  filterScoredCitations cl

/-- The `structured_dict` built by Stage 3: the refusal placeholder, or the
parsed model output with `metadata`, `resources` and `citations` overwritten
by the original configuration and the locally computed buckets. -/
def refineStructuredDict (cfg official_resources : JVal) (other_citations : List JVal) :
    ParsedMessage → JVal
  | .refusal =>
    .obj [("title", .str "Refusal"), ("time_to_complete", .str "0 minutes"),
          ("description", .str "The model refused to comply."), ("steps", .arr []),
          ("resources", official_resources), ("metadata", cfg), ("citations", .arr [])]
  | .parsed u =>
    setKey (setKey (setKey u.dump "metadata" cfg) "resources" official_resources)
      "citations" (.arr other_citations)

/-- `refine_use_case_with_reasoning`.  `scoringOracle` gives the citation
scoring response content (a JSON text that the code feeds to `json.loads`,
modelled by `loads`); `parseOracle` gives the structured refinement response.
The branch on `isinstance(raw_research, str)` only shapes prompt text and is
therefore not reproduced (see file header). -/
def refine_use_case_with_reasoning (cfg : JVal) (fs : FS) (_raw_research : RVal)
    (loads : String → Except PyErr JVal)
    (scoringOracle : Except PyErr String) (parseOracle : Except PyErr ParsedMessage) :
    StageResult String :=
  match truthyStr? (load_partial_result fs "refined_draft") with
  | some existing_content => .ok (existing_content, fs, 0)
  | none =>
    match scoringOracle with
    | .error e => .error e
    | .ok content =>
      match loads content with
      | .error e => .error e
      | .ok scored =>
        match pyGetDefault scored "official_resources" (.arr []) with
        | .error e => .error e
        | .ok official_resources =>
          match otherCitationsOf scored with
          | .error e => .error e
          | .ok other_citations =>
            match parseOracle with
            | .error e => .error e
            | .ok pm =>
              let refined_draft_json :=
                jsonDumps (refineStructuredDict cfg official_resources other_citations pm)
              .ok (refined_draft_json,
                   save_partial_result fs "refined_draft" refined_draft_json, 2)

-- -----------------------------------------------------------------------------
-- Stage 4: finalize_use_case
-- -----------------------------------------------------------------------------

/-- The refusal placeholder built by Stage 4 (unlike Stage 3 it has empty
`resources` and no `citations` key). -/
def finalizeRefusalDict (cfg : JVal) : JVal :=
  .obj [("title", .str "Refusal"), ("time_to_complete", .str "0 minutes"),
        ("description", .str "The model refused to comply."), ("steps", .arr []),
        ("resources", .arr []), ("metadata", cfg)]

/-- `finalize_use_case`: final polish; on success only `metadata` is
overwritten with the original configuration. -/
def finalize_use_case (cfg : JVal) (fs : FS) (_refined_json : String)
    (oracle : Except PyErr ParsedMessage) : StageResult String :=
  match truthyStr? (load_partial_result fs "final_use_case") with
  | some existing_content => .ok (existing_content, fs, 0)
  | none =>
    match oracle with
    | .error e => .error e
    | .ok pm =>
      let final_struct :=
        match pm with
        | .refusal => finalizeRefusalDict cfg
        | .parsed u => setKey u.dump "metadata" cfg
      let final_json := jsonDumps final_struct
      .ok (final_json, save_partial_result fs "final_use_case" final_json, 1)

-- -----------------------------------------------------------------------------
-- Stage 5: generate_example_solution
-- -----------------------------------------------------------------------------

/-- The guarded extraction of step titles from the polished JSON
(`try … except (json.JSONDecodeError, KeyError)`): other exception kinds
propagate.  The extracted titles feed only prompt text and a non-fatal
step-count warning, so the value is reduced to the error effect. -/
def extractUseCaseSteps (cfg : JVal) (loads : String → Except PyErr JVal)
    (polished_content : String) : Except PyErr Unit :=
  match (do
      let polished_data ← loads polished_content
      let sv ← pyGetDefault polished_data "steps" (.arr [])
      let sl ← pyAsList sv
      let _ ← sl.foldlM (fun (acc : List JVal) s => do
        let t ← pyGetItem s "step_title"
        pure (acc ++ [t])) []
      pure () : Except PyErr Unit) with
  | .ok _ => .ok ()
  | .error (.jsonDecodeError _) =>
    (match pyGetDefault cfg "steps" (.arr []) with
     | .ok _ => .ok ()
     | .error e => .error e)
  | .error (.keyError _) =>
    (match pyGetDefault cfg "steps" (.arr []) with
     | .ok _ => .ok ()
     | .error e => .error e)
  | .error e => .error e

/-- `generate_example_solution`.  Before the collaborator call the code reads
`raw_research.get('content', '')`, which raises `AttributeError` when
`raw_research` is the raw string a resumed or degraded Stage 2 produced. -/
def generate_example_solution (cfg : JVal) (fs : FS) (polished_content : String)
    (raw_research : RVal) (loads : String → Except PyErr JVal)
    (oracle : Except PyErr ExampleSolutionOutput) : StageResult String :=
  match truthyStr? (load_partial_result fs "example_solution") with
  | some existing_content => .ok (existing_content, fs, 0)
  | none =>
    match extractUseCaseSteps cfg loads polished_content with
    | .error e => .error e
    | .ok () =>
      match raw_research with
      | .str _ => .error (.attrError "str object has no attribute get")
      | .dict _ _ =>
        match oracle with
        | .error e => .error e
        | .ok solution =>
          let solution_json := jsonDumps solution.dump
          .ok (solution_json, save_partial_result fs "example_solution" solution_json, 1)

-- -----------------------------------------------------------------------------
-- Stage 6: suggest_visual_elements
-- -----------------------------------------------------------------------------

/-- `suggest_visual_elements`. -/
def suggest_visual_elements (fs : FS) (oracle : Except PyErr String) :
    StageResult String :=
  match truthyStr? (load_partial_result fs "visual_suggestions") with
  | some existing_content => .ok (existing_content, fs, 0)
  | none =>
    match oracle with
    | .error e => .error e
    | .ok content =>
      let suggestions := pyStrip content
      .ok (suggestions, save_partial_result fs "visual_suggestions" suggestions, 1)

-- -----------------------------------------------------------------------------
-- Document Assembler: convert_json_to_markdown
-- -----------------------------------------------------------------------------

/-- Effectful map over a list, aborting on the first raised exception (a
Python `for` loop that appends to an accumulator). -/
def mapExcept (f : JVal → Except PyErr String) : List JVal → Except PyErr (List String)
  | [] => .ok []
  | x :: xs => do
    let a ← f x
    let rest ← mapExcept f xs
    .ok (a :: rest)

/-- One numbered sub-step of a step. -/
def renderSubStep (j : Nat) (sub : JVal) : Except PyErr String := do
  let t ← pyGetItem sub "title"
  let desc ← pyGetDefault sub "description" .null
  let bullets ← pyGetDefault sub "bullets" .null
  let bulletsStr ←
    if pyTruthy bullets then do
      let bl ← pyAsList bullets
      pure (String.join (bl.map fun b => "   - " ++ pyStrOf b ++ "\n"))
    else pure ""
  .ok (toString j ++ ". **" ++ pyStrOf t ++ "**\n"
       ++ (if pyTruthy desc then "   " ++ pyStrOf desc ++ "\n" else "")
       ++ bulletsStr ++ "\n")

/-- `enumerate(step['sub_steps'], 1)` rendering loop. -/
def renderSubStepsFrom (j : Nat) : List JVal → Except PyErr String
  | [] => .ok ""
  | s :: rest => do
    let a ← renderSubStep j s
    let b ← renderSubStepsFrom (j + 1) rest
    .ok (a ++ b)

/-- One numbered step of the use case. -/
def renderStep (i : Nat) (step : JVal) : Except PyErr String := do
  let t ← pyGetItem step "step_title"
  let ins ← pyGetItem step "step_instructions"
  let subs ← pyGetDefault step "sub_steps" .null
  let subsStr ←
    if pyTruthy subs then do
      let sl ← pyAsList subs
      renderSubStepsFrom 1 sl
    else pure ""
  let adv ← pyGetDefault step "advice" .null
  .ok ("### Step " ++ toString i ++ ": " ++ pyStrOf t ++ "\n"
       ++ pyStrOf ins ++ "\n\n" ++ subsStr
       ++ (if pyTruthy adv then pyStrOf adv ++ "\n\n" else ""))

/-- `enumerate(data['steps'], 1)` rendering loop. -/
def renderStepsFrom (i : Nat) : List JVal → Except PyErr String
  | [] => .ok ""
  | s :: rest => do
    let a ← renderStep i s
    let b ← renderStepsFrom (i + 1) rest
    .ok (a ++ b)

/-- The three resource buckets of `resources_by_type`. -/
structure Buckets where
  tool : List JVal
  language : List JVal
  mode : List JVal

/-- Classify one resource: dicts go to the bucket named by their `type` field
(default `"tool"`); a `type` outside the bucket table raises the `KeyError`
of `resources_by_type[resource_type]`; non-dict (legacy) resources are
wrapped as a tool resource. -/
def bucketResource (b : Buckets) (resource : JVal) : Except PyErr Buckets :=
  match resource with
  | .obj _ => do
    let t ← pyGetDefault resource "type" (.str "tool")
    match t with
    | .str "tool" => .ok { b with tool := b.tool ++ [resource] }
    | .str "language" => .ok { b with language := b.language ++ [resource] }
    | .str "mode" => .ok { b with mode := b.mode ++ [resource] }
    | _ => .error (.keyError "resources_by_type")
  | _ => .ok { b with tool := b.tool ++ [.obj [("url", resource), ("title", .str "Official Resource")]] }

/-- The grouping loop over `data['resources']`. -/
def foldBuckets (b : Buckets) : List JVal → Except PyErr Buckets
  | [] => .ok b
  | r :: rest => do
    let b2 ← bucketResource b r
    foldBuckets b2 rest

/-- One resource line `* [title](url)` with its optional ` - section`
suffix. -/
def renderResourceItem (resource : JVal) : Except PyErr String := do
  let title ← pyGetDefault resource "title" (.str "Official Resource")
  let url ← pyGetItem resource "url"
  let sec ← pyGetDefault resource "section" (.str "")
  .ok ("* [" ++ pyStrOf title ++ "](" ++ pyStrOf url ++ ")"
       ++ (if pyTruthy sec then " - " ++ pyStrOf sec else "") ++ "\n")

/-- One `### <header>` bucket: skipped when empty, otherwise its items in
bucket order followed by a blank line. -/
def renderBucket (items : List JVal) (header : String) : Except PyErr String :=
  match items with
  | [] => .ok ""
  | _ => do
    let lines ← mapExcept renderResourceItem items
    .ok ("### " ++ header ++ "\n" ++ String.join lines ++ "\n")

/-- The `## Resources` section: group by type, then emit the buckets in the
fixed priority order tool, language, mode. -/
def renderResourcesSection (resources : List JVal) : Except PyErr String := do
  let b ← foldBuckets ⟨[], [], []⟩ resources
  let sTool ← renderBucket b.tool "Tool Documentation"
  let sLang ← renderBucket b.language "Language Documentation"
  let sMode ← renderBucket b.mode "Mode-specific Documentation"
  .ok ("## Resources\n" ++ sTool ++ sLang ++ sMode)

/-- The sort key `float(x.get('relevance_score', 0))` — raises `TypeError`
when the score is an explicit `null`. -/
def citationSortKey (c : JVal) : Except PyErr ℚ := do
  let v ← pyGetDefault c "relevance_score" (.num 0)
  pyFloat v

/-- One citation line with its optional indented snippet quote. -/
def renderCitationItem (c : JVal) : Except PyErr String := do
  let title ← pyGetDefault c "title" (.str "Untitled")
  let url ← pyGetItem c "url"
  let snippet ← pyGetDefault c "snippet" .null
  .ok ("* [" ++ pyStrOf title ++ "](" ++ pyStrOf url ++ ")"
       ++ (if pyTruthy snippet then "\n  > " ++ pyStrOf snippet else "") ++ "\n")

/-- Effectful computation of all sort keys (CPython evaluates every key
before sorting). -/
def citationKeys : List JVal → Except PyErr (List ℚ)
  | [] => .ok []
  | c :: rest => do
    let k ← citationSortKey c
    let ks ← citationKeys rest
    .ok (k :: ks)

/-- Insert a keyed citation into a descending-sorted list: it goes before
the first element with a strictly smaller key, hence after all earlier
elements with an equal key (stability). -/
def insertCitDesc (x : JVal × ℚ) : List (JVal × ℚ) → List (JVal × ℚ)
  | [] => [x]
  | y :: ys => if y.2 < x.2 then x :: y :: ys else y :: insertCitDesc x ys

/-- Python's `sorted(…, key=…, reverse=True)` is the stable descending sort
by key; the stable descending sort of a list is unique, so this insertion
sort computes the same list the source's call does. -/
def sortCitDesc (l : List (JVal × ℚ)) : List (JVal × ℚ) :=
  l.foldl (fun acc x => insertCitDesc x acc) []

/-- The `## Additional References` section: citations stably sorted by
descending relevance key, then rendered in order. -/
def renderCitationsSection (cs : List JVal) : Except PyErr String := do
  let keys ← citationKeys cs
  let sorted_citations := (sortCitDesc (cs.zip keys)).map (·.1)
  let lines ← mapExcept renderCitationItem sorted_citations
  .ok ("## Additional References\n" ++ String.join lines ++ "\n")

/-- One demo step of the example solution (`if 'code_or_prompt' in step`
guards the fenced code block). -/
def renderDemoStepsFrom (i : Nat) : List JVal → Except PyErr String
  | [] => .ok ""
  | s :: rest => do
    let act ← pyGetItem s "action"
    let code :=
      if pyHasKey s "code_or_prompt" then
        match pyGetItem s "code_or_prompt" with
        | .ok c => "```\n" ++ pyStrOf c ++ "\n```\n"
        | .error _ => ""
      else ""
    let b ← renderDemoStepsFrom (i + 1) rest
    .ok (toString i ++ ". **" ++ pyStrOf act ++ "**\n" ++ code ++ b)

/-- A `* item` bullet list. -/
def renderBulletList (xs : List JVal) : String :=
  String.join (xs.map fun x => "* " ++ pyStrOf x ++ "\n")

/-- The `## Example Solution` section, parsed from the example-solution JSON
text. -/
def renderExampleSection (loads : String → Except PyErr JVal)
    (example_solution_json : String) : Except PyErr String := do
  let exampleData ← loads example_solution_json
  let solution ← pyGetItem exampleData "solution"
  let t ← pyGetItem solution "title"
  let st ← pyGetItem solution "setup_time"
  let dt ← pyGetItem solution "demo_time"
  let scen ← pyGetItem solution "scenario"
  let prereqs ← pyGetItem solution "prerequisites" >>= pyAsList
  let steps ← pyGetItem solution "steps" >>= pyAsList
  let stepsStr ← renderDemoStepsFrom 1 steps
  let validation ← pyGetItem solution "validation" >>= pyAsList
  let key_points ← pyGetItem solution "key_points" >>= pyAsList
  let common_issues ← pyGetItem solution "common_issues" >>= pyAsList
  let variations ← pyGetDefault solution "variations" .null
  let varStr ←
    if pyTruthy variations then do
      let vl ← pyAsList variations
      pure ("\n### Variations\n" ++ renderBulletList vl)
    else pure ""
  let ds ← pyGetItem exampleData "demo_script"
  .ok ("## Example Solution: " ++ pyStrOf t
       ++ "\n\n**Setup Time:** " ++ pyStrOf st ++ " minutes  \n**Demo Time:** "
       ++ pyStrOf dt ++ " minutes\n\n### Scenario\n" ++ pyStrOf scen
       ++ "\n\n### Prerequisites\n" ++ renderBulletList prereqs
       ++ "\n### Demo Steps\n" ++ stepsStr
       ++ "\n### Validation\n" ++ renderBulletList validation
       ++ "\n### Key Teaching Points\n" ++ renderBulletList key_points
       ++ "\n### Common Issues to Watch For\n" ++ renderBulletList common_issues
       ++ varStr
       ++ "\n### Demo Script\n" ++ pyStrOf ds ++ "\n")

/-- One `* **key:** value` metadata line; `None` values are skipped and list
values are comma-joined (raising `TypeError` on non-string elements, as
`', '.join` does). -/
def renderMetaItem (kv : String × JVal) : Except PyErr String :=
  match kv.2 with
  | .null => .ok ""
  | .arr xs => do
    let strs ← xs.foldlM (fun (acc : List String) x =>
      match x with
      | .str s => .ok (acc ++ [s])
      | _ => .error (.typeError "sequence item: expected str instance")) []
    .ok ("* **" ++ kv.1 ++ ":** " ++ String.intercalate ", " strs ++ "\n")
  | v => .ok ("* **" ++ kv.1 ++ ":** " ++ pyStrOf v ++ "\n")

/-- The `## Metadata` section (`meta.items()` raises `AttributeError` on a
non-dict). -/
def renderMetadataSection (meta : JVal) : Except PyErr String :=
  match meta with
  | .obj kvs => do
    let items ← kvs.foldlM (fun (acc : String) kv => do
      let s ← renderMetaItem kv
      pure (acc ++ s)) ""
    .ok ("\n## Metadata\n" ++ items)
  | _ => .error (.attrError "object has no attribute items")

/-- The body of `convert_json_to_markdown` (everything inside its `try`).
`loads` is `json.loads` (see file header); the two optional arguments are
gated by Python truthiness. -/
def convertBody (loads : String → Except PyErr JVal) (json_content : String)
    (example_solution_json : Option String) (visual_suggestions : Option String) :
    Except PyErr String := do
  let data ← loads json_content
  let title ← pyGetItem data "title"
  let ttc ← pyGetItem data "time_to_complete"
  let desc ← pyGetItem data "description"
  let stepsL ← pyGetItem data "steps" >>= pyAsList
  let stepsSec ← renderStepsFrom 1 stepsL
  let resV ← pyGetItem data "resources"
  let resSec ←
    if pyTruthy resV then do
      let rl ← pyAsList resV
      renderResourcesSection rl
    else pure ""
  let citV ← pyGetDefault data "citations" .null
  let citSec ←
    if pyTruthy citV then do
      let cl ← pyAsList citV
      renderCitationsSection cl
    else pure ""
  let exSec ←
    match truthyStr? example_solution_json with
    | some ejs => renderExampleSection loads ejs
    | none => pure ""
  let visSec :=
    match truthyStr? visual_suggestions with
    | some vs =>
      "\n## Visual Elements\nThe following visual elements are recommended to enhance this use case:\n\n"
        ++ vs ++ "\n"
    | none => ""
  let metaV ← pyGetDefault data "metadata" .null
  let metaSec ← if pyTruthy metaV then renderMetadataSection metaV else pure ""
  .ok ("# " ++ pyStrOf title ++ "\n\n**Time to Complete:** " ++ pyStrOf ttc
       ++ "\n\n## Description\n" ++ pyStrOf desc ++ "\n\n## Steps\n"
       ++ stepsSec ++ resSec ++ citSec ++ exSec ++ visSec ++ metaSec)

/-- `convert_json_to_markdown`: any exception raised by the body is caught,
printed, and turned into the empty string. -/
def convert_json_to_markdown (loads : String → Except PyErr JVal) (json_content : String)
    (example_solution_json : Option String := none)
    (visual_suggestions : Option String := none) : String :=
  match convertBody loads json_content example_solution_json visual_suggestions with
  | .ok markdown => markdown
  | .error _ => ""

-- -----------------------------------------------------------------------------
-- The pipeline driver (main)
-- -----------------------------------------------------------------------------

/-- The post-retry outcome of each outbound collaborator call the driver can
make, one field per call site. -/
structure Oracles where
  rq : Except PyErr String
  research : Except PyErr (String × List CitD)
  scoring : Except PyErr String
  refineParse : Except PyErr ParsedMessage
  polishParse : Except PyErr ParsedMessage
  exampleParse : Except PyErr ExampleSolutionOutput
  visual : Except PyErr String

/-- Completion status logged at the end of `main`: all steps fresh/cached, or
the warning naming the degraded steps. -/
inductive RunStatus where
  | complete
  | withWarnings (failed_steps : List String)
deriving DecidableEq, Repr

/-- The observable outcome of a completed `main` run: the final step cache,
the content written to `use_case.md`, the per-step success flags, and the
logged status. -/
structure RunResult where
  fs : FS
  markdownFile : String
  stepResults : List (String × Bool)
  status : RunStatus
deriving DecidableEq, Repr

/-- `questions_to_ask` after block 1: the fresh list, or the fallback /
cached string from the failure policy (consumed only by the oracled Stage 2
request, so carried opaquely). -/
inductive QVal where
  | list (qs : List String)
  | str (s : String)
deriving DecidableEq, Repr

/-- The six `try/except` blocks of `main` followed by markdown assembly and
the final status log.  Each block runs its stage; on a raised exception it
consults `handle_step_failure` and re-raises when the policy yields nothing
truthy, otherwise records the step as degraded. -/
def runPipeline (cfg : JVal) (loads : String → Except PyErr JVal) (fs0 : FS)
    (o : Oracles) : Except PyErr RunResult := do
  -- Step 1: research questions
  let (_questions, fs1, r1) ←
    (match identify_research_questions fs0 o.rq with
     | .ok (qs, fs1, _) => .ok (QVal.list qs, fs1, true)
     | .error e =>
       match handle_step_failure fs0 "research_questions" e with
       | .error e2 => .error e2
       | .ok r =>
         match truthyStr? r with
         | none => .error e
         | some s => .ok (QVal.str s, fs0, false) : Except PyErr (QVal × FS × Bool))
  -- Step 2: deep research
  let (deep_research_results, fs2, r2) ←
    (match deep_research fs1 o.research with
     | .ok (rv, fs2, _) => .ok (rv, fs2, true)
     | .error e =>
       match handle_step_failure fs1 "deep_research" e with
       | .error e2 => .error e2
       | .ok r =>
         match truthyStr? r with
         | none => .error e
         | some s => .ok (RVal.str s, fs1, false) : Except PyErr (RVal × FS × Bool))
  -- Step 3: refine with reasoning
  let (refined_draft_json, fs3, r3) ←
    (match refine_use_case_with_reasoning cfg fs2 deep_research_results loads
        o.scoring o.refineParse with
     | .ok (j, fs3, _) => .ok (j, fs3, true)
     | .error e =>
       match handle_step_failure fs2 "refined_draft" e with
       | .error e2 => .error e2
       | .ok r =>
         match truthyStr? r with
         | none => .error e
         | some s => .ok (s, fs2, false) : Except PyErr (String × FS × Bool))
  -- Step 4: final polish
  let (final_use_case_json, fs4, r4) ←
    (match finalize_use_case cfg fs3 refined_draft_json o.polishParse with
     | .ok (j, fs4, _) => .ok (j, fs4, true)
     | .error e =>
       match handle_step_failure fs3 "final_use_case" e with
       | .error e2 => .error e2
       | .ok r =>
         match truthyStr? r with
         | none => .error e
         | some s => .ok (s, fs3, false) : Except PyErr (String × FS × Bool))
  -- Step 5: example solution
  let (example_solution_json, fs5, r5) ←
    (match generate_example_solution cfg fs4 final_use_case_json deep_research_results
        loads o.exampleParse with
     | .ok (j, fs5, _) => .ok (j, fs5, true)
     | .error e =>
       match handle_step_failure fs4 "example_solution" e with
       | .error e2 => .error e2
       | .ok r =>
         match truthyStr? r with
         | none => .error e
         | some s => .ok (s, fs4, false) : Except PyErr (String × FS × Bool))
  -- Step 6: visual suggestions
  let (visual_suggestions, fs6, r6) ←
    (match suggest_visual_elements fs5 o.visual with
     | .ok (v, fs6, _) => .ok (v, fs6, true)
     | .error e =>
       match handle_step_failure fs5 "visual_suggestions" e with
       | .error e2 => .error e2
       | .ok r =>
         match truthyStr? r with
         | none => .error e
         | some s => .ok (s, fs5, false) : Except PyErr (String × FS × Bool))
  -- Markdown assembly, file write, and completion status
  let markdown_content :=
    convert_json_to_markdown loads final_use_case_json (some example_solution_json)
      (some visual_suggestions)
  let step_results := [("research_questions", r1), ("deep_research", r2),
                       ("refined_draft", r3), ("final_use_case", r4),
                       ("example_solution", r5), ("visual_suggestions", r6)]
  let failed_steps := (step_results.filter fun p => !p.2).map (·.1)
  .ok { fs := fs6, markdownFile := markdown_content, stepResults := step_results,
        status := if failed_steps.isEmpty then .complete else .withWarnings failed_steps }

-- -----------------------------------------------------------------------------
-- Concrete environments for the pipeline-level theorems
-- -----------------------------------------------------------------------------

/-- A sample collaborator failure. -/
def boomErr : PyErr := .apiError "boom"

/-- A small concrete `USE_CASE_CONFIG` dict. -/
def cfgStub : JVal := .obj [("title", .str "Craft Prompts"), ("steps", .arr [])]

/-- A well-formed citation-scoring response value. -/
def scoredStub : JVal := .obj [("official_resources", .arr []), ("citations", .arr [])]

/-- A `json.loads` environment that parses every string to `scoredStub`. -/
def loadsStub : String → Except PyErr JVal := fun _ => .ok scoredStub

/-- A small parsed `UseCaseStructuredOutput`. -/
def ucsoStub : UseCaseStructuredOutput :=
  { title := "T", time_to_complete := "20 minutes", description := "D",
    steps := [], resources := [] }

/-- An all-`None` metadata block. -/
def metaStub : UseCaseMetadata :=
  { ai_tool := none, family := none, status := none, complexity_level := none,
    customization_level := none, time_minutes := none, department := none,
    role := none, notes := none, tool := none, mode := none, model := none,
    coding_language := none }

/-- A small parsed `ExampleSolutionOutput`. -/
def esoStub : ExampleSolutionOutput :=
  { metadata := metaStub,
    solution := { title := "S", setup_time := 5, demo_time := 2, prerequisites := [],
                  scenario := "Sc", steps := [], validation := [], key_points := [],
                  common_issues := [], variations := [] },
    demo_script := "Script" }

/-- Oracles under which every collaborator call succeeds. -/
def oraclesGood : Oracles :=
  { rq := .ok "Q1\nQ2", research := .ok ("R", []), scoring := .ok "scored",
    refineParse := .ok (.parsed ucsoStub), polishParse := .ok (.parsed ucsoStub),
    exampleParse := .ok esoStub, visual := .ok "V" }

/-- Oracles whose Stage 3 citation-scoring call fails. -/
def oraclesFailAt3 (e : PyErr) : Oracles := { oraclesGood with scoring := .error e }

/-- Oracles whose Stage 4 polish call fails. -/
def oraclesFailAt4 (e : PyErr) : Oracles := { oraclesGood with polishParse := .error e }

/-- Oracles whose Stage 5 example-solution call fails. -/
def oraclesFailAt5 (e : PyErr) : Oracles := { oraclesGood with exampleParse := .error e }

/-- Oracles under which the Stage 3 structured parse comes back flagged as a
refusal and every other call succeeds. -/
def oraclesRefusal : Oracles := { oraclesGood with refineParse := .ok .refusal }

/-- The Stage 3 refusal placeholder produced under `oraclesRefusal`. -/
def refusalDict3 : JVal := refineStructuredDict cfgStub (.arr []) [] .refusal

/-- Step cache lookup inside a completed run's result. -/
def runFSLookup (r : Except PyErr RunResult) (step : String) : Option String :=
  match r with
  | .ok res => lookupFS res.fs step
  | .error _ => none

/-- The per-step success flags of a completed run. -/
def runStepResults : Except PyErr RunResult → Option (List (String × Bool))
  | .ok res => some res.stepResults
  | .error _ => none

/-- A step cache with all six stages already present, whose cached final use
case is not valid JSON. -/
def fsAllCached : FS :=
  [("research_questions", "Q"), ("deep_research", "R"), ("refined_draft", "D"),
   ("final_use_case", "not json"), ("example_solution", "E"), ("visual_suggestions", "V")]

/-- A `json.loads` environment in which every parse fails. -/
def loadsBad : String → Except PyErr JVal := fun _ => .error (.jsonDecodeError "Expecting value")

/-- Citation with relevance score 0.3. -/
def citScore03 : JVal :=
  .obj [("url", .str "https://a"), ("title", .str "A"), ("relevance_score", .num (mkRat 3 10))]

/-- Citation with relevance score 0.9. -/
def citScore09 : JVal :=
  .obj [("url", .str "https://b"), ("title", .str "B"), ("relevance_score", .num (mkRat 9 10))]

/-- Citation whose relevance score is an explicit JSON null — exactly what
`Citation.model_dump()` emits for an unscored citation. -/
def citScoreNull : JVal :=
  .obj [("url", .str "https://c"), ("title", .str "C"), ("relevance_score", .null)]

/-- Citation with relevance score 0.7. -/
def citScore07 : JVal :=
  .obj [("url", .str "https://d"), ("title", .str "D"), ("relevance_score", .num (mkRat 7 10))]

/-- The same unscored citation with the relevance_score key absent
altogether. -/
def citScoreMissing : JVal := .obj [("url", .str "https://c"), ("title", .str "C")]

/-- A final use case whose citation list carries the claim's relevance scores
[0.3, 0.9, null, 0.7]. -/
def c6doc : JVal :=
  .obj [("title", .str "Doc"), ("time_to_complete", .str "20 minutes"),
        ("description", .str "Desc"), ("steps", .arr []), ("resources", .arr []),
        ("citations", .arr [citScore03, citScore09, citScoreNull, citScore07])]

/-- The same document with the null score replaced by a missing key. -/
def c6docMissingKey : JVal :=
  .obj [("title", .str "Doc"), ("time_to_complete", .str "20 minutes"),
        ("description", .str "Desc"), ("steps", .arr []), ("resources", .arr []),
        ("citations", .arr [citScore03, citScore09, citScoreMissing, citScore07])]

/-- Parse environment delivering `c6doc`. -/
def loadsC6 : String → Except PyErr JVal := fun _ => .ok c6doc

/-- Parse environment delivering `c6docMissingKey`. -/
def loadsC6MissingKey : String → Except PyErr JVal := fun _ => .ok c6docMissingKey

/-- The `type` tag a resource dict is bucketed under after the
`.get('type', 'tool')` default, when that tag is a string. -/
def resTypeStr : JVal → Option String
  | .obj kvs =>
    match (getAssoc kvs "type").getD (.str "tool") with
    | .str s => some s
    | _ => none
  | _ => none

/-- Whether a resource is bucketed under type `t`. -/
def hasResType (t : String) (r : JVal) : Bool := resTypeStr r == some t

/-- Whether a resource is a dict carrying one of the three known type
tags. -/
def wellTypedRes (r : JVal) : Bool :=
  hasResType "tool" r || hasResType "language" r || hasResType "mode" r

/-- The line a resource renders to (empty on the error its rendering would
raise; used only in theorem statements about successfully rendered
buckets). -/
def resItemLine (r : JVal) : String :=
  match renderResourceItem r with
  | .ok s => s
  | .error _ => ""

/-- The concatenated lines of a bucket's resources. -/
def resItemsStr (items : List JVal) : String := String.join (items.map resItemLine)

/-- A mode-typed resource. -/
def resModeDoc : JVal :=
  .obj [("url", .str "https://mode"), ("title", .str "Mode Docs"), ("type", .str "mode")]

/-- A first tool-typed resource. -/
def resToolDocA : JVal :=
  .obj [("url", .str "https://tool-a"), ("title", .str "Tool Docs A"), ("type", .str "tool")]

/-- A language-typed resource. -/
def resLangDoc : JVal :=
  .obj [("url", .str "https://lang"), ("title", .str "Lang Docs"), ("type", .str "language")]

/-- A second tool-typed resource. -/
def resToolDocB : JVal :=
  .obj [("url", .str "https://tool-b"), ("title", .str "Tool Docs B"), ("type", .str "tool")]

/-- The claim's resource multiset {mode, tool, language, tool} in one
reference order. -/
def c9resources : List JVal := [resModeDoc, resToolDocA, resLangDoc, resToolDocB]

/-- A final use case carrying an arbitrary resource list and nothing else
optional. -/
def c9doc (l : List JVal) : JVal :=
  .obj [("title", .str "Doc"), ("time_to_complete", .str "20 minutes"),
        ("description", .str "Desc"), ("steps", .arr []), ("resources", .arr l)]

/-- The document text above the Resources section of `c9doc`. -/
def c9head : String :=
  "# Doc\n\n**Time to Complete:** 20 minutes\n\n## Description\nDesc\n\n## Steps\n"

-- -----------------------------------------------------------------------------
-- Claim C1
-- -----------------------------------------------------------------------------

/-- C1: for every stage name in {refined_draft, final_use_case,
example_solution}, when the stage fails and no cached result exists for it,
`handle_step_failure` re-raises the original exception instead of returning a
substitute value, and a pipeline run whose Stage 3, 4 or 5 collaborator call
fails over an empty cache aborts with that exception. -/
theorem c1_no_fallback_stages_abort :
    (∀ (fs : FS) (step : String) (e : PyErr),
        step ∈ ["refined_draft", "final_use_case", "example_solution"] →
        load_partial_result fs step = none →
        handle_step_failure fs step e = .error e)
    ∧ runPipeline cfgStub loadsStub [] (oraclesFailAt3 boomErr) = .error boomErr
    ∧ runPipeline cfgStub loadsStub [] (oraclesFailAt4 boomErr) = .error boomErr
    ∧ runPipeline cfgStub loadsStub [] (oraclesFailAt5 boomErr) = .error boomErr := by
  refine ⟨?_, ?_, ?_, ?_⟩
  · intro fs step e hmem hload
    unfold handle_step_failure
    rw [hload]
    fin_cases hmem <;> rfl
  · rfl
  · rfl
  · rfl

/-- Witness for C1 at a concrete cache, stage and exception. -/
theorem c1_no_fallback_stages_abort_witness :
    handle_step_failure [] "refined_draft" boomErr = .error boomErr :=
  c1_no_fallback_stages_abort.1 [] "refined_draft" boomErr (List.Mem.head _) rfl

-- -----------------------------------------------------------------------------
-- Claim C2
-- -----------------------------------------------------------------------------

/-- C2: for every stage name in {research_questions, deep_research,
visual_suggestions}, when the stage fails and no cached result exists,
`handle_step_failure` returns (rather than raises) the fixed non-null
fallback for that stage: two generic boilerplate questions, the
unavailable-research placeholder with an empty citation list, and the
unavailable-visual-suggestions placeholder string respectively. -/
theorem c2_fallback_table_complete (fs : FS) (e : PyErr) :
    (load_partial_result fs "research_questions" = none →
      handle_step_failure fs "research_questions" e =
        .ok (some "What are the current best practices for this use case?\nWhat are common pitfalls to avoid?"))
    ∧ (load_partial_result fs "deep_research" = none →
      handle_step_failure fs "deep_research" e = .ok (some deepResearchFallback)
        ∧ deepResearchFallback =
            jsonDumps (.obj [("content", .str "Research unavailable due to API error. Please review manually."),
                             ("citations", .arr [])]))
    ∧ (load_partial_result fs "visual_suggestions" = none →
      handle_step_failure fs "visual_suggestions" e =
        .ok (some "Visual suggestions unavailable due to processing error.")) := by
  refine ⟨?_, ?_, ?_⟩ <;> intro hload
  · unfold handle_step_failure
    rw [hload]
    rfl
  · exact ⟨by unfold handle_step_failure; rw [hload]; rfl, rfl⟩
  · unfold handle_step_failure
    rw [hload]
    rfl

/-- Witness for C2 at a concrete empty cache. -/
theorem c2_fallback_table_complete_witness :
    handle_step_failure [] "research_questions" boomErr =
      .ok (some "What are the current best practices for this use case?\nWhat are common pitfalls to avoid?") :=
  (c2_fallback_table_complete [] boomErr).1 rfl

-- -----------------------------------------------------------------------------
-- Claim C3
-- -----------------------------------------------------------------------------

/-- C3: saving a partial result and loading it back returns exactly the saved
content string with no transformation, and loading a step for which no record
was ever saved returns `None` (a cache miss, not an error). -/
theorem c3_cache_round_trip :
    (∀ (fs : FS) (step C : String),
        load_partial_result (save_partial_result fs step C) step = some C)
    ∧ (∀ (fs : FS) (step : String), (∀ p ∈ fs, p.1 ≠ step) →
        load_partial_result fs step = none) := by
  constructor
  · intro fs step C
    simp [load_partial_result, save_partial_result, lookupFS]
  · intro fs step hnone
    induction fs with
    | nil => rfl
    | cons p rest ih =>
      have hp : p.1 ≠ step := hnone p (List.mem_cons_self p rest)
      have hrest : ∀ q ∈ rest, q.1 ≠ step := fun q hq => hnone q (List.mem_cons_of_mem p hq)
      simpa [load_partial_result, lookupFS, hp] using ih hrest

/-- Witness for C3 at a concrete job cache, step and content string. -/
theorem c3_cache_round_trip_witness :
    load_partial_result (save_partial_result [] "deep_research" "C") "deep_research" = some "C"
    ∧ load_partial_result [("other", "x")] "deep_research" = none :=
  ⟨c3_cache_round_trip.1 [] "deep_research" "C",
   c3_cache_round_trip.2 [("other", "x")] "deep_research" (by simp)⟩

-- -----------------------------------------------------------------------------
-- Claim C4
-- -----------------------------------------------------------------------------

/-- C4 counterexample: the empty string is a cached result for
research_questions (`load` returns it, a record exists), yet the stage treats
it as a miss — it performs one outbound collaborator call and overwrites the
cache — contradicting the claim that every cached result is returned with
zero outbound calls. -/
theorem c4_cached_stage_counterexample :
    load_partial_result [("research_questions", "")] "research_questions" = some ""
    ∧ identify_research_questions [("research_questions", "")] (.ok "Q1\nQ2") =
        .ok (["Q1", "Q2"],
             [("research_questions", "Q1\nQ2"), ("research_questions", "")], 1) :=
  ⟨rfl, rfl⟩

/-- C4 (amended): for each of the six stages, when a non-empty result is
cached for its step name, the stage performs zero outbound collaborator calls
and returns the cached content before any request is built — unchanged for
five stages, split into its newline-separated lines for research_questions;
an empty cached string is treated as a cache miss. -/
theorem c4_cached_stage_short_circuits :
    (∀ (fs : FS) (c : String) (oracle : Except PyErr String),
        truthyStr? (load_partial_result fs "research_questions") = some c →
        identify_research_questions fs oracle = .ok (pySplitNL c, fs, 0))
    ∧ (∀ (fs : FS) (c : String) (oracle : Except PyErr (String × List CitD)),
        truthyStr? (load_partial_result fs "deep_research") = some c →
        deep_research fs oracle = .ok (.str c, fs, 0))
    ∧ (∀ (cfg : JVal) (fs : FS) (rr : RVal) (loads : String → Except PyErr JVal)
        (so : Except PyErr String) (po : Except PyErr ParsedMessage) (c : String),
        truthyStr? (load_partial_result fs "refined_draft") = some c →
        refine_use_case_with_reasoning cfg fs rr loads so po = .ok (c, fs, 0))
    ∧ (∀ (cfg : JVal) (fs : FS) (rj : String) (o : Except PyErr ParsedMessage) (c : String),
        truthyStr? (load_partial_result fs "final_use_case") = some c →
        finalize_use_case cfg fs rj o = .ok (c, fs, 0))
    ∧ (∀ (cfg : JVal) (fs : FS) (pc : String) (rr : RVal)
        (loads : String → Except PyErr JVal) (o : Except PyErr ExampleSolutionOutput)
        (c : String),
        truthyStr? (load_partial_result fs "example_solution") = some c →
        generate_example_solution cfg fs pc rr loads o = .ok (c, fs, 0))
    ∧ (∀ (fs : FS) (o : Except PyErr String) (c : String),
        truthyStr? (load_partial_result fs "visual_suggestions") = some c →
        suggest_visual_elements fs o = .ok (c, fs, 0)) := by
  refine ⟨?_, ?_, ?_, ?_, ?_, ?_⟩
  · intro fs c oracle h
    unfold identify_research_questions
    rw [h]
  · intro fs c oracle h
    unfold deep_research
    rw [h]
  · intro cfg fs rr loads so po c h
    unfold refine_use_case_with_reasoning
    rw [h]
  · intro cfg fs rj o c h
    unfold finalize_use_case
    rw [h]
  · intro cfg fs pc rr loads o c h
    unfold generate_example_solution
    rw [h]
  · intro fs o c h
    unfold suggest_visual_elements
    rw [h]

/-- Witness for C4 (amended) at concrete non-empty caches for all six
stages. -/
theorem c4_cached_stage_short_circuits_witness :
    identify_research_questions [("research_questions", "A\nB")] (.error boomErr) =
      .ok (["A", "B"], [("research_questions", "A\nB")], 0)
    ∧ deep_research [("deep_research", "R")] (.error boomErr) =
        .ok (.str "R", [("deep_research", "R")], 0)
    ∧ refine_use_case_with_reasoning cfgStub [("refined_draft", "D")] (.str "R") loadsStub
        (.error boomErr) (.error boomErr) = .ok ("D", [("refined_draft", "D")], 0)
    ∧ finalize_use_case cfgStub [("final_use_case", "F")] "D" (.error boomErr) =
        .ok ("F", [("final_use_case", "F")], 0)
    ∧ generate_example_solution cfgStub [("example_solution", "E")] "F" (.str "R") loadsStub
        (.error boomErr) = .ok ("E", [("example_solution", "E")], 0)
    ∧ suggest_visual_elements [("visual_suggestions", "V")] (.error boomErr) =
        .ok ("V", [("visual_suggestions", "V")], 0) :=
  ⟨c4_cached_stage_short_circuits.1 [("research_questions", "A\nB")] "A\nB" (.error boomErr) rfl,
   c4_cached_stage_short_circuits.2.1 [("deep_research", "R")] "R" (.error boomErr) rfl,
   c4_cached_stage_short_circuits.2.2.1 cfgStub [("refined_draft", "D")] (.str "R") loadsStub
     (.error boomErr) (.error boomErr) "D" rfl,
   c4_cached_stage_short_circuits.2.2.2.1 cfgStub [("final_use_case", "F")] "D"
     (.error boomErr) "F" rfl,
   c4_cached_stage_short_circuits.2.2.2.2.1 cfgStub [("example_solution", "E")] "F" (.str "R")
     loadsStub (.error boomErr) "E" rfl,
   c4_cached_stage_short_circuits.2.2.2.2.2 [("visual_suggestions", "V")] (.error boomErr)
     "V" rfl⟩

-- -----------------------------------------------------------------------------
-- Claim C8
-- -----------------------------------------------------------------------------

/-- C8 counterexample: a resumed Stage 2 run (cached record present) returns
the raw cached string, which is not a ResearchResult value (no content field
plus citation list) — refuting the claim that every invocation returns a
ResearchResult. -/
theorem c8_resumed_returns_raw_string :
    deep_research [("deep_research", "cached research text")] (.ok ("fresh", [])) =
      .ok (.str "cached research text", [("deep_research", "cached research text")], 0)
    ∧ (RVal.str "cached research text").isDict = false :=
  ⟨rfl, rfl⟩

/-- C8 (amended): a fresh Stage 2 run returns the ResearchResult structure —
stripped content plus the ordered citation list — and caches its JSON
serialization; a resumed run that finds a cached record returns the raw
cached string itself instead of a ResearchResult. -/
theorem c8_deep_research_output_shape :
    (∀ (fs : FS) (content : String) (cits : List CitD),
        truthyStr? (load_partial_result fs "deep_research") = none →
        deep_research fs (.ok (content, cits)) =
          .ok (.dict (pyStrip content) cits,
               save_partial_result fs "deep_research"
                 (jsonDumps (researchResultsJVal (pyStrip content) cits)), 1)
          ∧ (RVal.dict (pyStrip content) cits).isDict = true)
    ∧ (∀ (fs : FS) (c : String) (oracle : Except PyErr (String × List CitD)),
        truthyStr? (load_partial_result fs "deep_research") = some c →
        deep_research fs oracle = .ok (.str c, fs, 0) ∧ (RVal.str c).isDict = false) := by
  constructor
  · intro fs content cits h
    refine ⟨?_, rfl⟩
    unfold deep_research
    rw [h]
  · intro fs c oracle h
    refine ⟨?_, rfl⟩
    unfold deep_research
    rw [h]

/-- Witness for C8 (amended): one fresh and one resumed invocation at
concrete caches. -/
theorem c8_deep_research_output_shape_witness :
    (deep_research [] (.ok ("R", [])) =
      .ok (.dict "R" [], [("deep_research", jsonDumps (researchResultsJVal "R" []))], 1)
      ∧ (RVal.dict "R" []).isDict = true)
    ∧ (deep_research [("deep_research", "R")] (.error boomErr) =
        .ok (.str "R", [("deep_research", "R")], 0) ∧ (RVal.str "R").isDict = false) :=
  ⟨c8_deep_research_output_shape.1 [] "R" [] rfl,
   c8_deep_research_output_shape.2 [("deep_research", "R")] "R" (.error boomErr) rfl⟩

-- -----------------------------------------------------------------------------
-- Claim C5
-- -----------------------------------------------------------------------------

/-- C5: every Stage 3 invocation that reaches a collaborator response —
refusal or successful parse — produces a structured dict whose metadata field
is exactly the original configuration (the collaborator's own metadata
emission is discarded), and in the success branch whose resources and
citations fields are the locally computed official-resource and
scored-citation buckets from the citation-scoring sub-call. -/
theorem c5_refine_overwrites_metadata (cfg : JVal) (fs : FS) (rr : RVal)
    (loads : String → Except PyErr JVal) (sc : String) (scored official : JVal)
    (other : List JVal) (pm : ParsedMessage)
    (hnc : truthyStr? (load_partial_result fs "refined_draft") = none)
    (hld : loads sc = .ok scored)
    (hoff : pyGetDefault scored "official_resources" (.arr []) = .ok official)
    (hoth : otherCitationsOf scored = .ok other) :
    refine_use_case_with_reasoning cfg fs rr loads (.ok sc) (.ok pm) =
      .ok (jsonDumps (refineStructuredDict cfg official other pm),
           save_partial_result fs "refined_draft"
             (jsonDumps (refineStructuredDict cfg official other pm)), 2)
    ∧ lookupKey (refineStructuredDict cfg official other pm) "metadata" = some cfg
    ∧ (∀ u, pm = .parsed u →
        lookupKey (refineStructuredDict cfg official other pm) "resources" = some official
        ∧ lookupKey (refineStructuredDict cfg official other pm) "citations" =
            some (.arr other)) := by
  refine ⟨?_, ?_, ?_⟩
  · unfold refine_use_case_with_reasoning
    rw [hnc]
    simp only [hld, hoff, hoth]
  · cases pm <;> rfl
  · intro u hu
    subst hu
    exact ⟨rfl, rfl⟩

/-- Witness for C5 at a concrete configuration, scored response and parsed
output (success branch). -/
theorem c5_refine_overwrites_metadata_witness :
    refine_use_case_with_reasoning cfgStub [] (.str "R") loadsStub (.ok "scored")
        (.ok (.parsed ucsoStub)) =
      .ok (jsonDumps (refineStructuredDict cfgStub (.arr []) [] (.parsed ucsoStub)),
           save_partial_result [] "refined_draft"
             (jsonDumps (refineStructuredDict cfgStub (.arr []) [] (.parsed ucsoStub))), 2)
    ∧ lookupKey (refineStructuredDict cfgStub (.arr []) [] (.parsed ucsoStub)) "metadata" =
        some cfgStub
    ∧ (∀ u, ParsedMessage.parsed ucsoStub = .parsed u →
        lookupKey (refineStructuredDict cfgStub (.arr []) [] (.parsed ucsoStub)) "resources" =
          some (.arr [])
        ∧ lookupKey (refineStructuredDict cfgStub (.arr []) [] (.parsed ucsoStub)) "citations" =
            some (.arr [])) :=
  c5_refine_overwrites_metadata cfgStub [] (.str "R") loadsStub "scored" scoredStub (.arr [])
    [] (.parsed ucsoStub) rfl rfl rfl rfl

-- -----------------------------------------------------------------------------
-- Claim C7
-- -----------------------------------------------------------------------------

/-- C7: when the Stage 3 collaborator response is flagged as refusal, the
produced structured use case has title "Refusal" and zero steps, its JSON is
cached under refined_draft and returned normally, and the pipeline proceeds
through Stage 4 and the rest of the run without raising (every step flag is
true and the run completes). -/
theorem c7_refusal_proceeds :
    lookupKey refusalDict3 "title" = some (.str "Refusal")
    ∧ lookupKey refusalDict3 "steps" = some (.arr [])
    ∧ runFSLookup (runPipeline cfgStub loadsStub [] oraclesRefusal) "refined_draft" =
        some (jsonDumps refusalDict3)
    ∧ runStepResults (runPipeline cfgStub loadsStub [] oraclesRefusal) =
        some [("research_questions", true), ("deep_research", true), ("refined_draft", true),
              ("final_use_case", true), ("example_solution", true),
              ("visual_suggestions", true)] :=
  ⟨rfl, rfl, rfl, rfl⟩

-- -----------------------------------------------------------------------------
-- Claim C10
-- -----------------------------------------------------------------------------

/-- C10: whenever the Document Assembler's body raises, the assembler returns
the empty string instead of propagating; and a pipeline run whose six stages
all resume from cache but whose cached final use case fails to parse writes
that empty string as the markdown output and still logs the run as complete —
the rendering failure neither aborts the run nor surfaces as an error
status. -/
theorem c10_render_failure_swallowed :
    (∀ (loads : String → Except PyErr JVal) (jc : String) (exj vis : Option String)
        (e : PyErr), convertBody loads jc exj vis = .error e →
        convert_json_to_markdown loads jc exj vis = "")
    ∧ (∀ (cfg : JVal) (o : Oracles) (loads : String → Except PyErr JVal) (e : PyErr),
        loads "not json" = .error e →
        runPipeline cfg loads fsAllCached o =
          .ok { fs := fsAllCached, markdownFile := "",
                stepResults := [("research_questions", true), ("deep_research", true),
                                ("refined_draft", true), ("final_use_case", true),
                                ("example_solution", true), ("visual_suggestions", true)],
                status := .complete }) := by
  constructor
  · intro loads jc exj vis e h
    unfold convert_json_to_markdown
    rw [h]
  · intro cfg o loads e h
    have hmd : convert_json_to_markdown loads "not json" (some "E") (some "V") = "" := by
      unfold convert_json_to_markdown convertBody
      rw [h]
      rfl
    calc runPipeline cfg loads fsAllCached o
        = .ok { fs := fsAllCached,
                markdownFile :=
                  convert_json_to_markdown loads "not json" (some "E") (some "V"),
                stepResults := [("research_questions", true), ("deep_research", true),
                                ("refined_draft", true), ("final_use_case", true),
                                ("example_solution", true), ("visual_suggestions", true)],
                status := .complete } := rfl
      _ = _ := by rw [hmd]

/-- Witness for C10 with a concrete failing parse environment. -/
theorem c10_render_failure_swallowed_witness :
    convert_json_to_markdown loadsBad "not json" none none = ""
    ∧ runPipeline cfgStub loadsBad fsAllCached oraclesGood =
        .ok { fs := fsAllCached, markdownFile := "",
              stepResults := [("research_questions", true), ("deep_research", true),
                              ("refined_draft", true), ("final_use_case", true),
                              ("example_solution", true), ("visual_suggestions", true)],
              status := .complete } :=
  ⟨c10_render_failure_swallowed.1 loadsBad "not json" none none
     (.jsonDecodeError "Expecting value") rfl,
   c10_render_failure_swallowed.2 cfgStub oraclesGood loadsBad
     (.jsonDecodeError "Expecting value") rfl⟩

-- -----------------------------------------------------------------------------
-- Claim C6
-- -----------------------------------------------------------------------------

/-- C6 (code evaluated at the claim's input): for citations with relevance
scores [0.3, 0.9, null, 0.7] the sort key computation `float(None)` raises
`TypeError`, the assembler's catch-all turns the whole document into the
empty string, and no Additional References section with the claimed
[0.9, 0.7, 0.3, null] ordering is rendered.  When the null is a missing key
instead, the `.get` default 0 applies and the intended descending order
0.9, 0.7, 0.3, missing-as-0 does appear. -/
theorem c6_null_score_breaks_rendering :
    citationSortKey citScoreNull =
      .error (.typeError "float() argument must be a string or a real number, not NoneType")
    ∧ convert_json_to_markdown loadsC6 "doc" none none = ""
    ∧ convert_json_to_markdown loadsC6MissingKey "doc" none none =
        "# Doc\n\n**Time to Complete:** 20 minutes\n\n## Description\nDesc\n\n## Steps\n"
          ++ "## Additional References\n"
          ++ "* [B](https://b)\n* [D](https://d)\n* [A](https://a)\n* [C](https://c)\n\n" :=
  ⟨rfl, rfl, rfl⟩

-- -----------------------------------------------------------------------------
-- Claim C9
-- -----------------------------------------------------------------------------

/-- Bind of a successful `Except` computation. -/
theorem exceptBind_ok {α β : Type} (a : α) (f : α → Except PyErr β) :
    (Except.ok a >>= f : Except PyErr β) = f a := rfl

/-- Bind of a failed `Except` computation. -/
theorem exceptBind_error {α β : Type} (e : PyErr) (f : α → Except PyErr β) :
    (Except.error e >>= f : Except PyErr β) = .error e := rfl

/-- `mapExcept` over a list of elements that all render successfully. -/
theorem mapExcept_ok (f : JVal → Except PyErr String) (g : JVal → String) :
    ∀ xs : List JVal, (∀ x ∈ xs, f x = .ok (g x)) → mapExcept f xs = .ok (xs.map g) := by
  intro xs
  induction xs with
  | nil => intro _; rfl
  | cons x rest ih =>
    intro h
    have hx := h x (List.mem_cons_self x rest)
    have hr := ih fun y hy => h y (List.mem_cons_of_mem x hy)
    simp [mapExcept, hx, hr, exceptBind_ok]

/-- A non-empty bucket whose items all render successfully produces its
header followed by the item lines and a blank line. -/
theorem renderBucket_ok (items : List JVal) (header : String) (hne : items ≠ [])
    (hok : ∀ x ∈ items, renderResourceItem x = .ok (resItemLine x)) :
    renderBucket items header =
      .ok ("### " ++ header ++ "\n" ++ resItemsStr items ++ "\n") := by
  cases items with
  | nil => exact absurd rfl hne
  | cons x xs =>
    simp only [renderBucket]
    rw [mapExcept_ok _ resItemLine _ hok]
    simp [resItemsStr, exceptBind_ok]

/-- The grouping loop sends a list of well-typed resource dicts to exactly
the three type-filtered sublists, appended to the incoming buckets. -/
theorem foldBuckets_filters :
    ∀ (rs : List JVal) (b : Buckets), (∀ r ∈ rs, wellTypedRes r = true) →
    foldBuckets b rs = .ok ⟨b.tool ++ rs.filter (hasResType "tool"),
                            b.language ++ rs.filter (hasResType "language"),
                            b.mode ++ rs.filter (hasResType "mode")⟩ := by
  intro rs
  induction rs with
  | nil => intro b _; simp [foldBuckets]
  | cons r rest ih =>
    intro b hwt
    have hr : wellTypedRes r = true := hwt r (List.mem_cons_self r rest)
    have hrest : ∀ y ∈ rest, wellTypedRes y = true :=
      fun y hy => hwt y (List.mem_cons_of_mem r hy)
    cases r with
    | null => simp [wellTypedRes, hasResType, resTypeStr] at hr
    | bool b2 => simp [wellTypedRes, hasResType, resTypeStr] at hr
    | num q => simp [wellTypedRes, hasResType, resTypeStr] at hr
    | str s => simp [wellTypedRes, hasResType, resTypeStr] at hr
    | arr xs => simp [wellTypedRes, hasResType, resTypeStr] at hr
    | obj kvs =>
      cases ht : (getAssoc kvs "type").getD (.str "tool") with
      | null => simp [wellTypedRes, hasResType, resTypeStr, ht] at hr
      | bool b2 => simp [wellTypedRes, hasResType, resTypeStr, ht] at hr
      | num q => simp [wellTypedRes, hasResType, resTypeStr, ht] at hr
      | arr xs => simp [wellTypedRes, hasResType, resTypeStr, ht] at hr
      | obj kvs2 => simp [wellTypedRes, hasResType, resTypeStr, ht] at hr
      | str s =>
        have h1 : hasResType "tool" (.obj kvs) = (s == "tool") := by
          simp [hasResType, resTypeStr, ht]
        have h2 : hasResType "language" (.obj kvs) = (s == "language") := by
          simp [hasResType, resTypeStr, ht]
        have h3 : hasResType "mode" (.obj kvs) = (s == "mode") := by
          simp [hasResType, resTypeStr, ht]
        have hs : s = "tool" ∨ s = "language" ∨ s = "mode" := by
          simpa [wellTypedRes, h1, h2, h3, or_assoc] using hr
        rcases hs with hs | hs | hs <;> subst hs
        · have hb : bucketResource b (.obj kvs) =
              .ok { b with tool := b.tool ++ [.obj kvs] } := by
            simp [bucketResource, pyGetDefault, ht, exceptBind_ok]
          rw [show foldBuckets b (JVal.obj kvs :: rest) =
                foldBuckets { b with tool := b.tool ++ [.obj kvs] } rest by
              simp [foldBuckets, hb, exceptBind_ok]]
          rw [ih _ hrest]
          simp [List.filter_cons, h1, h2, h3, List.append_assoc]
        · have hb : bucketResource b (.obj kvs) =
              .ok { b with language := b.language ++ [.obj kvs] } := by
            simp [bucketResource, pyGetDefault, ht, exceptBind_ok]
          rw [show foldBuckets b (JVal.obj kvs :: rest) =
                foldBuckets { b with language := b.language ++ [.obj kvs] } rest by
              simp [foldBuckets, hb, exceptBind_ok]]
          rw [ih _ hrest]
          simp [List.filter_cons, h1, h2, h3, List.append_assoc]
        · have hb : bucketResource b (.obj kvs) =
              .ok { b with mode := b.mode ++ [.obj kvs] } := by
            simp [bucketResource, pyGetDefault, ht, exceptBind_ok]
          rw [show foldBuckets b (JVal.obj kvs :: rest) =
                foldBuckets { b with mode := b.mode ++ [.obj kvs] } rest by
              simp [foldBuckets, hb, exceptBind_ok]]
          rw [ih _ hrest]
          simp [List.filter_cons, h1, h2, h3, List.append_assoc]

/-- C9: for any input order of the resources tagged {mode, tool, language,
tool}, the assembled document renders the Tool Documentation section (its 2
tool items, in input order) before Language Documentation (1 item) before
Mode-specific Documentation (1 item) — the section order is fixed by category
priority and independent of the input order. -/
theorem c9_resource_grouping (loads : String → Except PyErr JVal) (s : String)
    (l : List JVal) (hperm : l.Perm c9resources) (hloads : loads s = .ok (c9doc l)) :
    convert_json_to_markdown loads s none none =
      c9head ++ "## Resources\n"
        ++ "### Tool Documentation\n" ++ resItemsStr (l.filter (hasResType "tool")) ++ "\n"
        ++ "### Language Documentation\n"
        ++ resItemsStr (l.filter (hasResType "language")) ++ "\n"
        ++ "### Mode-specific Documentation\n"
        ++ resItemsStr (l.filter (hasResType "mode")) ++ "\n"
    ∧ (l.filter (hasResType "tool")).length = 2
    ∧ (l.filter (hasResType "language")).length = 1
    ∧ (l.filter (hasResType "mode")).length = 1 := by
  have hmemc : ∀ r ∈ l, r ∈ c9resources := fun r hr => hperm.mem_iff.mp hr
  have hwt : ∀ r ∈ l, wellTypedRes r = true := by
    intro r hr
    have hc := hmemc r hr
    fin_cases hc <;> rfl
  have hlenT : (l.filter (hasResType "tool")).length = 2 := by
    rw [← List.countP_eq_length_filter, hperm.countP_eq]
    rfl
  have hlenL : (l.filter (hasResType "language")).length = 1 := by
    rw [← List.countP_eq_length_filter, hperm.countP_eq]
    rfl
  have hlenM : (l.filter (hasResType "mode")).length = 1 := by
    rw [← List.countP_eq_length_filter, hperm.countP_eq]
    rfl
  have hneT : l.filter (hasResType "tool") ≠ [] := by
    intro h0
    rw [h0] at hlenT
    exact absurd hlenT (by decide)
  have hneL : l.filter (hasResType "language") ≠ [] := by
    intro h0
    rw [h0] at hlenL
    exact absurd hlenL (by decide)
  have hneM : l.filter (hasResType "mode") ≠ [] := by
    intro h0
    rw [h0] at hlenM
    exact absurd hlenM (by decide)
  have hokAll : ∀ x ∈ l, renderResourceItem x = .ok (resItemLine x) := by
    intro x hx
    have hc := hmemc x hx
    fin_cases hc <;> rfl
  have hokT : ∀ x ∈ l.filter (hasResType "tool"), renderResourceItem x = .ok (resItemLine x) :=
    fun x hx => hokAll x (List.mem_of_mem_filter hx)
  have hokL : ∀ x ∈ l.filter (hasResType "language"),
      renderResourceItem x = .ok (resItemLine x) :=
    fun x hx => hokAll x (List.mem_of_mem_filter hx)
  have hokM : ∀ x ∈ l.filter (hasResType "mode"), renderResourceItem x = .ok (resItemLine x) :=
    fun x hx => hokAll x (List.mem_of_mem_filter hx)
  have hsec : renderResourcesSection l =
      .ok ("## Resources\n"
        ++ ("### Tool Documentation\n" ++ resItemsStr (l.filter (hasResType "tool")) ++ "\n")
        ++ ("### Language Documentation\n"
            ++ resItemsStr (l.filter (hasResType "language")) ++ "\n")
        ++ ("### Mode-specific Documentation\n"
            ++ resItemsStr (l.filter (hasResType "mode")) ++ "\n")) := by
    unfold renderResourcesSection
    rw [foldBuckets_filters l ⟨[], [], []⟩ hwt]
    simp only [List.nil_append, exceptBind_ok]
    rw [renderBucket_ok _ _ hneT hokT]
    simp only [exceptBind_ok]
    rw [renderBucket_ok _ _ hneL hokL]
    simp only [exceptBind_ok]
    rw [renderBucket_ok _ _ hneM hokM]
    simp only [exceptBind_ok]
    rfl
  have hlne : l ≠ [] := by
    intro h0
    have := hperm.length_eq
    rw [h0] at this
    exact absurd this (by decide)
  have hisE : l.isEmpty = false := by
    cases l with
    | nil => exact absurd rfl hlne
    | cons a as => rfl
  have htr : pyTruthy (.arr l) = true := by
    simp [pyTruthy, hisE]
  have hbody : convertBody loads s none none =
      .ok (c9head ++ ("## Resources\n"
        ++ ("### Tool Documentation\n" ++ resItemsStr (l.filter (hasResType "tool")) ++ "\n")
        ++ ("### Language Documentation\n"
            ++ resItemsStr (l.filter (hasResType "language")) ++ "\n")
        ++ ("### Mode-specific Documentation\n"
            ++ resItemsStr (l.filter (hasResType "mode")) ++ "\n"))) := by
    unfold convertBody
    rw [hloads]
    simp [c9doc, pyGetItem, getAssoc, pyGetDefault, pyAsList, truthyStr?, renderStepsFrom,
      pyStrOf, pyTruthy, hisE, hsec, exceptBind_ok, c9head, String.append_assoc]
    all_goals rfl
  refine ⟨?_, hlenT, hlenL, hlenM⟩
  unfold convert_json_to_markdown
  rw [hbody]
  simp only [String.append_assoc]

/-- Witness for C9 at a concrete input order (mode, tool, language, tool)
differing from the rendered section order. -/
theorem c9_resource_grouping_witness :
    convert_json_to_markdown (fun _ => .ok (c9doc c9resources)) "doc" none none =
      c9head ++ "## Resources\n"
        ++ "### Tool Documentation\n"
        ++ resItemsStr (c9resources.filter (hasResType "tool")) ++ "\n"
        ++ "### Language Documentation\n"
        ++ resItemsStr (c9resources.filter (hasResType "language")) ++ "\n"
        ++ "### Mode-specific Documentation\n"
        ++ resItemsStr (c9resources.filter (hasResType "mode")) ++ "\n"
    ∧ (c9resources.filter (hasResType "tool")).length = 2
    ∧ (c9resources.filter (hasResType "language")).length = 1
    ∧ (c9resources.filter (hasResType "mode")).length = 1 :=
  c9_resource_grouping (fun _ => .ok (c9doc c9resources)) "doc" c9resources
    (List.Perm.refl _) rfl

end UCG
